import Mathlib

/-!
Shallow embedding of the binary-orbit evolution engine of the COMPAS-2
repository (src/BaseBinaryStar.cpp, src/utils.cpp), together with proofs of
the stated properties of that code.

Conventions of the embedding:
  * C++ `double` values are modelled as real numbers; all arithmetic is exact.
  * `utils::Compare(x, y)` (utils.cpp) compares exactly when
    COMPARE_WITH_TOLERANCE is not defined, so `Compare(x,y) < 0` is `x < y`,
    `Compare(x,y) == 0` is `x = y`, and so on.
  * Physical constants from the (missing) constants.h header are carried in a
    `Consts` record so statements hold for every valuation of them; positivity
    is assumed explicitly where a proof needs it.
  * Collaborator code that lives outside the two source files (vector3d.h,
    the constituent-star class) is modelled from the specification; each such
    definition carries a doc comment saying so.
-/

namespace COMPAS

open Real
open Classical

noncomputable section

/-- Physical and unit-conversion constants of constants.h (the header is not
part of the two source files, so they are abstract real parameters here). -/
structure Consts where
  gravConstSI : ℝ
  speedOfLight : ℝ
  astronomicalUnitSI : ℝ
  msolToKg : ℝ
  secondsInYear : ℝ
  yearToMyr : ℝ
  hubbleTime : ℝ
  rsolToAU : ℝ
  auToRsol : ℝ
  auToKm : ℝ
  kmToAU : ℝ
  gravConstSN : ℝ
  gravConstAUMsolYr : ℝ
  maxMassTransferFractionPerStep : ℝ

/-- 3-vector of real numbers, modelling the C++ Vector3d value type declared
in the (missing) vector3d.h header. -/
structure Vector3d where
  x : ℝ
  y : ℝ
  z : ℝ

namespace Vector3d

/-- Componentwise vector addition. -/
def add (u v : Vector3d) : Vector3d := ⟨u.x + v.x, u.y + v.y, u.z + v.z⟩

/-- Componentwise vector subtraction. -/
def sub (u v : Vector3d) : Vector3d := ⟨u.x - v.x, u.y - v.y, u.z - v.z⟩

/-- Scalar multiple of a vector. -/
def smul (c : ℝ) (v : Vector3d) : Vector3d := ⟨c * v.x, c * v.y, c * v.z⟩

/-- Componentwise division of a vector by a scalar. -/
def sdiv (v : Vector3d) (c : ℝ) : Vector3d := ⟨v.x / c, v.y / c, v.z / c⟩

/-- Dot product, modelling linalg::dot of vector3d.h. -/
def dot (u v : Vector3d) : ℝ := u.x * v.x + u.y * v.y + u.z * v.z

/-- Cross product, modelling linalg::cross of vector3d.h. -/
def cross (u v : Vector3d) : Vector3d :=
  ⟨u.y * v.z - u.z * v.y, u.z * v.x - u.x * v.z, u.x * v.y - u.y * v.x⟩

/-- Euclidean magnitude, modelling Vector3d::Magnitude(). -/
def mag (v : Vector3d) : ℝ := Real.sqrt (dot v v)

/-- Modelled from the spec: linalg::angleBetween of the missing vector3d.h,
the angle between two vectors, recovered as the arccosine of the normalised
dot product (the Euler-angle geometry of the spec, section 4.4). -/
def angleBetween (u v : Vector3d) : ℝ := Real.arccos (dot u v / (mag u * mag v))

/-- Rotation about the z-axis by an angle. -/
def rotZ (a : ℝ) (v : Vector3d) : Vector3d :=
  ⟨Real.cos a * v.x - Real.sin a * v.y, Real.sin a * v.x + Real.cos a * v.y, v.z⟩

/-- Rotation about the x-axis by an angle. -/
def rotX (a : ℝ) (v : Vector3d) : Vector3d :=
  ⟨v.x, Real.cos a * v.y - Real.sin a * v.z, Real.sin a * v.y + Real.cos a * v.z⟩

/-- Modelled from the spec: Vector3d::RotateVector of the missing vector3d.h,
rotation of a vector into the reference frame given by the standard Euler
angles ThetaE, PhiE, PsiE (z-x-z convention). -/
def rotateVector (thetaE phiE psiE : ℝ) (v : Vector3d) : Vector3d :=
  rotZ phiE (rotX thetaE (rotZ psiE v))

theorem angleBetween_nonneg (u v : Vector3d) : 0 ≤ angleBetween u v :=
  Real.arccos_nonneg _

theorem angleBetween_le_pi (u v : Vector3d) : angleBetween u v ≤ Real.pi :=
  Real.arccos_le_pi _

end Vector3d

/-- BaseBinaryStar::CalculateRocheLobeRadius_Static (BaseBinaryStar.cpp,
Eggleton 1983 eq. 2): Roche-lobe radius in units of the semi-major axis. -/
def calculateRocheLobeRadiusStatic (p_MassPrimary p_MassSecondary : ℝ) : ℝ :=
  let q := p_MassPrimary / p_MassSecondary
  let qCubeRoot := q ^ ((1 : ℝ) / 3)
  0.49 / (0.6 + Real.log (1.0 + qCubeRoot) / qCubeRoot / qCubeRoot)

/-- Value of the fixed-resolution quadrature loop in
BaseBinaryStar::CalculateTimeToCoalescence: the loop runs e over 0, de, 2·de,
... while e < p_Eccentricity with de = p_Eccentricity/10000, which is exactly
10000 terms for a positive upper limit. -/
def petersQuadratureSum (e0 : ℝ) : ℝ :=
  let de := e0 / 10000
  Finset.sum (Finset.range 10000) fun i =>
    let e := (i : ℝ) * de
    let one_e_2 := 1.0 - e * e
    de * e ^ ((29 : ℝ) / 19) * (1.0 + (121.0 / 304.0) * e * e) ^ ((1181 : ℝ) / 2299) /
      (one_e_2 * Real.sqrt one_e_2)

/-- BaseBinaryStar::CalculateTimeToCoalescence (BaseBinaryStar.cpp): Peters
1964 time to coalescence in SI units, with the closed-form circular value,
the small- and large-eccentricity approximations, and the quadrature branch. -/
def calculateTimeToCoalescence (cst : Consts)
    (p_SemiMajorAxis p_Eccentricity p_Mass1 p_Mass2 : ℝ) : ℝ :=
  let g := cst.gravConstSI
  let c := cst.speedOfLight
  let beta := (64.0 / 5.0) * g * g * g * p_Mass1 * p_Mass2 * (p_Mass1 + p_Mass2) /
      (c * c * c * c * c)
  let four_beta := 4.0 * beta
  let tC := p_SemiMajorAxis * p_SemiMajorAxis * p_SemiMajorAxis * p_SemiMajorAxis / four_beta
  if p_Eccentricity = 0 then tC
  else
    let e0_2 := p_Eccentricity * p_Eccentricity
    let c0 := p_SemiMajorAxis * (1.0 - e0_2) * p_Eccentricity ^ (-(12.0 : ℝ) / 19.0) *
        (1.0 + (121.0 * e0_2 / 304.0)) ^ (-(870.0 : ℝ) / 2299.0)
    let four_c0 := c0 * c0 * c0 * c0
    if p_Eccentricity < 0.01 then four_c0 * p_Eccentricity ^ ((48.0 : ℝ) / 19.0) / four_beta
    else if 0.99 < p_Eccentricity then
      let one_e0_2 := 1.0 - e0_2
      tC * ((768.0 / 425.0) * (one_e0_2 * one_e0_2 * one_e0_2 * Real.sqrt one_e0_2))
    else (12.0 / 19.0) * (four_c0 / beta) * petersQuadratureSum p_Eccentricity

/-- Outcome record of BaseBinaryStar::ResolveCoalescence: the DCO-formation
snapshots, the coalescence time in Myr, and the two outcome flags. -/
structure CoalescenceResult where
  semiMajorAxisAtDCOFormation : ℝ
  eccentricityAtDCOFormation : ℝ
  timeToCoalescence : ℝ
  merged : Bool
  mergesInHubbleTime : Bool

/-- BaseBinaryStar::ResolveCoalescence (BaseBinaryStar.cpp): computes the time
to coalescence in SI units and sets m_Merged and m_MergesInHubbleTime from the
comparison of that time with HUBBLE_TIME. -/
def resolveCoalescence (cst : Consts) (semiMajorAxis eccentricity mass1 mass2 : ℝ) :
    CoalescenceResult :=
  let tC := calculateTimeToCoalescence cst (semiMajorAxis * cst.astronomicalUnitSI)
      eccentricity (mass1 * cst.msolToKg) (mass2 * cst.msolToKg)
  { semiMajorAxisAtDCOFormation := semiMajorAxis
    eccentricityAtDCOFormation := eccentricity
    timeToCoalescence := tC / cst.secondsInYear * cst.yearToMyr
    merged := if tC < cst.hubbleTime then true else false
    mergesInHubbleTime := if tC < cst.hubbleTime then true else false }

/-- C5: for eccentricity exactly zero, the computed gravitational-wave time to
coalescence is exactly the closed-form circular value a^4/(4*beta) with
beta = (64/5) G^3 m1 m2 (m1+m2) / c^5; no eccentricity branch contributes. -/
theorem timeToCoalescence_circular (cst : Consts) (a m1 m2 : ℝ) :
    calculateTimeToCoalescence cst a 0 m1 m2 =
      a ^ 4 / (4.0 * ((64.0 / 5.0) * cst.gravConstSI ^ 3 * m1 * m2 * (m1 + m2) /
        cst.speedOfLight ^ 5)) := by
  simp only [calculateTimeToCoalescence, eq_self_iff_true, if_true]
  ring

/-- C10: after ResolveCoalescence the two outcome flags m_Merged and
m_MergesInHubbleTime always agree, and both are true exactly when the computed
coalescence time is below the Hubble-time constant. -/
theorem resolveCoalescence_flags_agree (cst : Consts) (a e m1 m2 : ℝ) :
    ((resolveCoalescence cst a e m1 m2).merged =
      (resolveCoalescence cst a e m1 m2).mergesInHubbleTime) ∧
    ((resolveCoalescence cst a e m1 m2).merged = true ↔
      calculateTimeToCoalescence cst (a * cst.astronomicalUnitSI) e
        (m1 * cst.msolToKg) (m2 * cst.msolToKg) < cst.hubbleTime) := by
  refine ⟨rfl, ?_⟩
  simp only [resolveCoalescence]
  split <;> simp_all

/-- C7: the Roche-lobe radius formula is invariant under simultaneous
rescaling of both masses (it depends only on the mass ratio), and at equal
masses its value in units of the semi-major axis is 0.38 to within 0.005
(the Eggleton formula gives 0.49/(0.6 + log 2) there). -/
theorem rocheLobeRadius_scale_invariant_and_equal_mass_value :
    (∀ m1 m2 c : ℝ, 0 < m1 → 0 < m2 → 0 < c →
      calculateRocheLobeRadiusStatic (c * m1) (c * m2) =
        calculateRocheLobeRadiusStatic m1 m2) ∧
    |calculateRocheLobeRadiusStatic 1 1 - 0.38| < 0.005 := by
  constructor
  · intro m1 m2 c _ _ hc
    simp only [calculateRocheLobeRadiusStatic]
    rw [mul_div_mul_left m1 m2 (ne_of_gt hc)]
  · have hval : calculateRocheLobeRadiusStatic 1 1 = 0.49 / (0.6 + Real.log 2) := by
      simp only [calculateRocheLobeRadiusStatic]
      norm_num
    have hlt : Real.log 2 < 0.6931471808 := Real.log_two_lt_d9
    have hgt : (0.6931471803 : ℝ) < Real.log 2 := Real.log_two_gt_d9
    have hd : (0 : ℝ) < 0.6 + Real.log 2 := by linarith
    have key1 : 0.49 / (0.6 + Real.log 2) < 0.385 := by
      rw [div_lt_iff₀ hd]; linarith
    have key2 : (0.375 : ℝ) < 0.49 / (0.6 + Real.log 2) := by
      rw [lt_div_iff₀ hd]; linarith
    rw [hval, abs_sub_lt_iff]
    constructor <;> linarith

/-- C7 witness: the scale-invariance half instantiated at masses 3 and 5 with
scale factor 2, together with the equal-mass numeric value. -/
theorem rocheLobeRadius_scale_invariant_witness :
    calculateRocheLobeRadiusStatic (2 * 3) (2 * 5) = calculateRocheLobeRadiusStatic 3 5 ∧
    |calculateRocheLobeRadiusStatic 1 1 - 0.38| < 0.005 :=
  ⟨rocheLobeRadius_scale_invariant_and_equal_mass_value.1 3 5 2
      (by norm_num) (by norm_num) (by norm_num),
   rocheLobeRadius_scale_invariant_and_equal_mass_value.2⟩

/-- Constituent-star data consumed by ResolveCommonEnvelopeEvent. The star
physics itself (core mass, radius, lambda, stellar-type membership tests, the
radius after envelope loss) lives in the external constituent-star
collaborator, so those quantities enter the model as given values. The
postRadius field is the radius the star reports at the final merger check,
after ResolveCommonEnvelopeAccretion / ResolveEnvelopeLossAndSwitch /
UpdateAttributes have run. -/
structure CEStar where
  mass : ℝ
  coreMass : ℝ
  radius : ℝ
  lambdaAtCEE : ℝ
  isMainSequence : Bool
  isCompactObject : Bool
  isRLOF : Bool
  postRadius : ℝ

/-- Options read by ResolveCommonEnvelopeEvent. -/
structure CEOptions where
  allowMainSequenceStarToSurviveCommonEnvelope : Bool
  alphaCE : ℝ

/-- Outcome record of BaseBinaryStar::ResolveCommonEnvelopeEvent. The fields
star1Mass and star2Mass are the constituent masses after the event. -/
structure CEResult where
  mass1Final : ℝ
  mass2Final : ℝ
  massEnv1 : ℝ
  massEnv2 : ℝ
  doubleCoreCE : Bool
  aFinalRsol : ℝ
  semiMajorAxis : ℝ
  eccentricity : ℝ
  star1Mass : ℝ
  star2Mass : ℝ
  stellarMerger : Bool

/-- BaseBinaryStar::ResolveCommonEnvelopeEvent (BaseBinaryStar.cpp): the
alpha-lambda energy-balance common-envelope resolution. Final masses and
envelopes follow the main-sequence/donor logic; the new separation solves
aFinal = (m1Final*m2Final)/(k1+k2+k3) in Rsol with the envelope-binding terms
k1, k2 (zero for compact objects) and k3 = m1*m2/periastron; the eccentricity
is set to zero; a stellar merger is flagged for a surviving-MS-donor or
no-envelope configuration, a non-positive final separation, or post-event
radii summing to more than the final separation.
Parts modelled from the spec because they live in missing collaborator code:
PeriastronRsol() is semiMajorAxisRsol*(1 - eccentricity) (spec section 3:
circularization at periastron), and ResolveCommonEnvelopeAccretion(mass)
leaves the star with the passed final mass (spec section 4.3: the donor mass
drops to its core mass). The input stellarMergerIn is the binary's
m_StellarMerger flag on entry (the function only ever raises it). -/
def resolveCommonEnvelopeEvent (cst : Consts) (opts : CEOptions)
    (semiMajorAxisRsol eccentricity : ℝ) (star1 star2 : CEStar)
    (stellarMergerIn : Bool) : CEResult :=
  let alphaCE := opts.alphaCE
  let periastronRsol := semiMajorAxisRsol * (1.0 - eccentricity)
  let ms1 := opts.allowMainSequenceStarToSurviveCommonEnvelope && star1.isMainSequence
  let ms2 := opts.allowMainSequenceStarToSurviveCommonEnvelope && star2.isMainSequence
  let donorMS := (ms1 && star1.isRLOF) || (ms2 && star2.isRLOF)
  let mass1Final := if ms1 then star1.mass else star1.coreMass
  let massEnv1 := if ms1 then 0.0 else star1.mass - star1.coreMass
  let mass2Final := if ms2 then star2.mass else star2.coreMass
  let massEnv2 := if ms2 then 0.0 else star2.mass - star2.coreMass
  let envelopeFlag1 := if 0 < massEnv1 ∧ 0 < mass1Final then true else false
  let envelopeFlag2 := if 0 < massEnv2 ∧ 0 < mass2Final then true else false
  let doubleCoreCE := envelopeFlag1 && envelopeFlag2
  let lambda1 := star1.lambdaAtCEE
  let lambda2 := star2.lambdaAtCEE
  let k1 := if star1.isCompactObject then 0.0
      else (2.0 / (lambda1 * alphaCE)) * star1.mass * massEnv1 / star1.radius
  let k2 := if star2.isCompactObject then 0.0
      else (2.0 / (lambda2 * alphaCE)) * star2.mass * massEnv2 / star2.radius
  let k3 := star1.mass * star2.mass / periastronRsol
  let k4 := mass1Final * mass2Final
  let aFinalRsol := k4 / (k1 + k2 + k3)
  let aFinal := aFinalRsol * cst.rsolToAU
  let mergerA := stellarMergerIn || (donorMS || (!envelopeFlag1 && !envelopeFlag2))
  let merger := mergerA ||
      (if aFinal ≤ 0 ∨ aFinal * cst.auToRsol < star1.postRadius + star2.postRadius
       then true else false)
  { mass1Final := mass1Final
    mass2Final := mass2Final
    massEnv1 := massEnv1
    massEnv2 := massEnv2
    doubleCoreCE := doubleCoreCE
    aFinalRsol := aFinalRsol
    semiMajorAxis := aFinal
    eccentricity := 0
    star1Mass := mass1Final
    star2Mass := mass2Final
    stellarMerger := merger }

/-- C2: every common-envelope event yields the new separation
(m1Final*m2Final)/(k1+k2+k3), where k1 and k2 are the envelope-binding terms
(zero when the star is a compact object) and k3 = m1*m2/periastron, and sets
the eccentricity exactly to zero. -/
theorem resolveCE_separation_formula (cst : Consts) (opts : CEOptions)
    (aRsol e : ℝ) (star1 star2 : CEStar) (mIn : Bool) :
    (resolveCommonEnvelopeEvent cst opts aRsol e star1 star2 mIn).aFinalRsol =
      ((resolveCommonEnvelopeEvent cst opts aRsol e star1 star2 mIn).mass1Final *
       (resolveCommonEnvelopeEvent cst opts aRsol e star1 star2 mIn).mass2Final) /
      ((if star1.isCompactObject then 0.0
        else (2.0 / (star1.lambdaAtCEE * opts.alphaCE)) * star1.mass *
          (resolveCommonEnvelopeEvent cst opts aRsol e star1 star2 mIn).massEnv1 /
          star1.radius) +
       (if star2.isCompactObject then 0.0
        else (2.0 / (star2.lambdaAtCEE * opts.alphaCE)) * star2.mass *
          (resolveCommonEnvelopeEvent cst opts aRsol e star1 star2 mIn).massEnv2 /
          star2.radius) +
       star1.mass * star2.mass / (aRsol * (1.0 - e))) ∧
    (resolveCommonEnvelopeEvent cst opts aRsol e star1 star2 mIn).semiMajorAxis =
      (resolveCommonEnvelopeEvent cst opts aRsol e star1 star2 mIn).aFinalRsol *
        cst.rsolToAU ∧
    (resolveCommonEnvelopeEvent cst opts aRsol e star1 star2 mIn).eccentricity = 0 :=
  ⟨rfl, rfl, rfl⟩

/-- C3: in a common-envelope event with a giant donor that has a well-defined
core, a main-sequence companion that is not overflowing, and alpha = 1, the
donor ends with exactly its core mass, the eccentricity is exactly zero, and
a stellar merger is flagged if and only if the summed post-event radii exceed
the computed final separation. -/
theorem resolveCE_giant_donor_MS_companion (cst : Consts) (opts : CEOptions)
    (aRsol e : ℝ) (star1 star2 : CEStar)
    (halpha : opts.alphaCE = 1.0)
    (hallow : opts.allowMainSequenceStarToSurviveCommonEnvelope = true)
    (h1ms : star1.isMainSequence = false)
    (h1rlof : star1.isRLOF = true)
    (hcore : 0 < star1.coreMass)
    (henv : star1.coreMass < star1.mass)
    (h2ms : star2.isMainSequence = true)
    (h2rlof : star2.isRLOF = false)
    (hrad : 0 < star1.postRadius + star2.postRadius)
    (hconv : 0 < cst.auToRsol) :
    (resolveCommonEnvelopeEvent cst opts aRsol e star1 star2 false).star1Mass =
      star1.coreMass ∧
    (resolveCommonEnvelopeEvent cst opts aRsol e star1 star2 false).eccentricity = 0 ∧
    ((resolveCommonEnvelopeEvent cst opts aRsol e star1 star2 false).stellarMerger = true ↔
      (resolveCommonEnvelopeEvent cst opts aRsol e star1 star2 false).semiMajorAxis *
        cst.auToRsol < star1.postRadius + star2.postRadius) := by
  have henvp : 0 < star1.mass - star1.coreMass := by linarith
  refine ⟨?_, ?_, ?_⟩
  · simp [resolveCommonEnvelopeEvent, hallow, h1ms]
  · rfl
  · simp only [resolveCommonEnvelopeEvent]
    simp [hallow, h1ms, h1rlof, h2ms, h2rlof, henvp, hcore]
    intro h
    nlinarith

/-- Concrete valuation of the abstract constants (all ones), used to
instantiate universally quantified statements at a concrete point. -/
def cst1 : Consts :=
  { gravConstSI := 1, speedOfLight := 1, astronomicalUnitSI := 1, msolToKg := 1
    secondsInYear := 1, yearToMyr := 1, hubbleTime := 1, rsolToAU := 1
    auToRsol := 1, auToKm := 1, kmToAU := 1, gravConstSN := 1
    gravConstAUMsolYr := 1, maxMassTransferFractionPerStep := 1 }

/-- Options consumed by the sampling constructor's rejection loop
(BaseBinaryStar.cpp, BaseBinaryStar::BaseBinaryStar). -/
structure BirthOptions where
  allowRLOFAtBirth : Bool
  allowTouchingAtBirth : Bool
  aisRefinementPhase : Bool
  minimumMassSecondary : ℝ
  initialMassFunctionMin : ℝ
  initialMassFunctionMax : ℝ
  massRatioDistributionMin : ℝ
  massRatioDistributionMax : ℝ
  semiMajorAxisDistributionMin : ℝ
  semiMajorAxisDistributionMax : ℝ

/-- One draw of the initial-condition distributions: primary mass, mass
ratio, the two metallicities, semi-major axis and eccentricity, exactly the
values sampled at the top of the constructor's do-while loop. -/
structure RawSample where
  mass1 : ℝ
  massRatioVal : ℝ
  metallicity1 : ℝ
  metallicity2 : ℝ
  semiMajorAxis : ℝ
  eccentricity : ℝ

/-- Result of processing one sampled configuration in the constructor's
do-while body: the (possibly equilibrated) masses and orbit, and the four
rejection flags; accepted is the negation of the loop's continue condition. -/
structure BuiltBinary where
  mass1 : ℝ
  mass2 : ℝ
  semiMajorAxis : ℝ
  eccentricity : ℝ
  massesEquilibratedAtBirth : Bool
  rlof : Bool
  merger : Bool
  secondarySmallerThanMinimumMass : Bool
  outsideParameterSpace : Bool
  accepted : Bool

/-- The constructor's rocheLobeTracker1 value for a sampled configuration:
primary radius over the primary's Roche-lobe radius at periastron. -/
def rocheLobeTracker1 (cst : Consts) (radiusOf : ℝ → ℝ → ℝ) (c : RawSample) : ℝ :=
  radiusOf c.mass1 (min (max c.metallicity1 0.0) 1.0) * cst.rsolToAU /
    (c.semiMajorAxis * (1.0 - c.eccentricity) *
      calculateRocheLobeRadiusStatic c.mass1 (c.massRatioVal * c.mass1))

/-- The constructor's rocheLobeTracker2 value for a sampled configuration:
secondary radius over the secondary's Roche-lobe radius at periastron. -/
def rocheLobeTracker2 (cst : Consts) (radiusOf : ℝ → ℝ → ℝ) (c : RawSample) : ℝ :=
  radiusOf (c.massRatioVal * c.mass1) (min (max c.metallicity2 0.0) 1.0) * cst.rsolToAU /
    (c.semiMajorAxis * (1.0 - c.eccentricity) *
      calculateRocheLobeRadiusStatic (c.massRatioVal * c.mass1) c.mass1)

/-- Body of the rejection loop of the sampling constructor
BaseBinaryStar::BaseBinaryStar (BaseBinaryStar.cpp). The external
constituent-star construction enters through radiusOf, giving the ZAMS
radius in Rsol as a function of mass and (clamped) metallicity. Roche-lobe
trackers compare each radius with the Roche-lobe radius at periastron; if
either exceeds it and overflow at birth is allowed, the masses are both set
to their mean, the semi-major axis is multiplied by
16*m1m2*m1m2/M^4*(1 - e0^2) with m1m2 and M computed from the already
equilibrated masses (exactly as the source does), the orbit is circularised
and the stars are rebuilt with the equal masses. -/
def buildBinaryCandidate (cst : Consts) (opts : BirthOptions)
    (radiusOf : ℝ → ℝ → ℝ) (c : RawSample) : BuiltBinary :=
  let mass1A := c.mass1
  let mass2A := c.massRatioVal * c.mass1
  let met1 := min (max c.metallicity1 0.0) 1.0
  let met2 := min (max c.metallicity2 0.0) 1.0
  let r1A := radiusOf mass1A met1
  let r2A := radiusOf mass2A met2
  let rlof := if 1 < rocheLobeTracker1 cst radiusOf c ∨ 1 < rocheLobeTracker2 cst radiusOf c
      then true else false
  let equil := rlof && opts.allowRLOFAtBirth
  let mass1 := if equil then (mass1A + mass2A) / 2.0 else mass1A
  let mass2 := if equil then (mass1A + mass2A) / 2.0 else mass2A
  let semiMajorAxis := if equil then
      let bigM := mass1 + mass2
      let m1m2 := mass1 * mass2
      c.semiMajorAxis * (16.0 * m1m2 * m1m2 / (bigM * bigM * bigM * bigM) *
        (1.0 - c.eccentricity * c.eccentricity))
    else c.semiMajorAxis
  let eccentricity := if equil then 0 else c.eccentricity
  let r1 := if equil then radiusOf mass1 met1 else r1A
  let r2 := if equil then radiusOf mass2 met2 else r2A
  let merger := if semiMajorAxis * cst.auToRsol < r1 + r2 then true else false
  let secondarySmall := if mass2 < opts.minimumMassSecondary then true else false
  let outside := if opts.aisRefinementPhase then
      (if mass1 < opts.initialMassFunctionMin ∨ opts.initialMassFunctionMax < mass1 ∨
          c.massRatioVal < opts.massRatioDistributionMin ∨
          opts.massRatioDistributionMax < c.massRatioVal ∨
          semiMajorAxis < opts.semiMajorAxisDistributionMin ∨
          opts.semiMajorAxisDistributionMax < semiMajorAxis
       then true else false)
    else false
  let accepted := !((!opts.allowRLOFAtBirth && rlof) || (!opts.allowTouchingAtBirth && merger) ||
      secondarySmall || outside)
  { mass1 := mass1, mass2 := mass2, semiMajorAxis := semiMajorAxis
    eccentricity := eccentricity, massesEquilibratedAtBirth := equil, rlof := rlof
    merger := merger, secondarySmallerThanMinimumMass := secondarySmall
    outsideParameterSpace := outside, accepted := accepted }

/-- The do-while rejection loop of the sampling constructor: keeps drawing
candidates from the sample stream until one is accepted; fuel bounds the
number of draws (the C++ loop has no bound, so statements hold for every
fuel). -/
def sampleBinaryLoop (cst : Consts) (opts : BirthOptions) (radiusOf : ℝ → ℝ → ℝ)
    (stream : ℕ → RawSample) : ℕ → ℕ → Option BuiltBinary
  | _, 0 => none
  | i, Nat.succ fuel =>
    let b := buildBinaryCandidate cst opts radiusOf (stream i)
    if b.accepted then some b else sampleBinaryLoop cst opts radiusOf stream (i + 1) fuel

theorem buildBinaryCandidate_accepted_secondary (cst : Consts) (opts : BirthOptions)
    (radiusOf : ℝ → ℝ → ℝ) (c : RawSample)
    (h : (buildBinaryCandidate cst opts radiusOf c).accepted = true) :
    opts.minimumMassSecondary ≤ (buildBinaryCandidate cst opts radiusOf c).mass2 ∧
    (buildBinaryCandidate cst opts radiusOf c).secondarySmallerThanMinimumMass = false := by
  simp only [buildBinaryCandidate] at h ⊢
  simp only [Bool.not_eq_true', Bool.or_eq_false_iff, Bool.and_eq_false_iff] at h
  obtain ⟨⟨-, hsec⟩, -⟩ := h
  constructor
  · by_contra hlt
    push_neg at hlt
    rw [if_pos hlt] at hsec
    exact Bool.noConfusion hsec
  · exact hsec

/-- C9: any binary returned by the constructor's rejection loop has secondary
mass at least the configured minimum; a draw violating the bound sets the
secondarySmallerThanMinimumMass flag and is resampled, never returned. -/
theorem sampledBinary_secondary_above_minimum (cst : Consts) (opts : BirthOptions)
    (radiusOf : ℝ → ℝ → ℝ) (stream : ℕ → RawSample) (i fuel : ℕ) (b : BuiltBinary)
    (h : sampleBinaryLoop cst opts radiusOf stream i fuel = some b) :
    opts.minimumMassSecondary ≤ b.mass2 ∧
    b.secondarySmallerThanMinimumMass = false := by
  induction fuel generalizing i with
  | zero => exact Option.noConfusion h
  | succ n ih =>
    rw [sampleBinaryLoop] at h
    by_cases hb : (buildBinaryCandidate cst opts radiusOf (stream i)).accepted = true
    · rw [if_pos hb] at h
      obtain rfl : buildBinaryCandidate cst opts radiusOf (stream i) = b :=
        Option.some_injective _ h
      exact buildBinaryCandidate_accepted_secondary cst opts radiusOf (stream i) hb
    · rw [if_neg hb] at h
      exact ih (i + 1) h

/-- Options instance for the C9 witness: a minimum secondary mass of zero and
no overflow or touching allowed at birth. -/
def birthOptsEx : BirthOptions :=
  { allowRLOFAtBirth := false, allowTouchingAtBirth := true, aisRefinementPhase := false
    minimumMassSecondary := 0, initialMassFunctionMin := 0, initialMassFunctionMax := 0
    massRatioDistributionMin := 0, massRatioDistributionMax := 0
    semiMajorAxisDistributionMin := 0, semiMajorAxisDistributionMax := 0 }

/-- Sample instance for the C9 witness: equal unit masses on a circular unit
orbit. -/
def rawSampleEx : RawSample :=
  { mass1 := 1, massRatioVal := 1, metallicity1 := 0, metallicity2 := 0
    semiMajorAxis := 1, eccentricity := 0 }

theorem buildBinaryCandidateEx_accepted :
    (buildBinaryCandidate cst1 birthOptsEx (fun _ _ => 0) rawSampleEx).accepted = true := by
  simp [buildBinaryCandidate, rocheLobeTracker1, rocheLobeTracker2, cst1, birthOptsEx,
    rawSampleEx]

/-- C9 witness: the loop applied to the constant stream of the example sample
returns after one draw, and the returned secondary mass meets the bound. -/
theorem sampledBinary_secondary_above_minimum_witness :
    birthOptsEx.minimumMassSecondary ≤
      (buildBinaryCandidate cst1 birthOptsEx (fun _ _ => 0) rawSampleEx).mass2 ∧
    (buildBinaryCandidate cst1 birthOptsEx (fun _ _ => 0)
      rawSampleEx).secondarySmallerThanMinimumMass = false :=
  sampledBinary_secondary_above_minimum cst1 birthOptsEx (fun _ _ => 0)
    (fun _ => rawSampleEx) 0 1 _
    (by rw [sampleBinaryLoop, if_pos buildBinaryCandidateEx_accepted])

theorem rocheLobeRadius31_bounds :
    0 < calculateRocheLobeRadiusStatic 3 1 ∧ calculateRocheLobeRadiusStatic 3 1 < 1 := by
  have hq : ((3 : ℝ) / 1) = 3 := by norm_num
  have ht : (0 : ℝ) < (3 : ℝ) ^ ((1 : ℝ) / 3) := Real.rpow_pos_of_pos (by norm_num) _
  have hlog : 0 < Real.log (1.0 + (3 : ℝ) ^ ((1 : ℝ) / 3)) := Real.log_pos (by linarith)
  have hquot : 0 ≤ Real.log (1.0 + (3 : ℝ) ^ ((1 : ℝ) / 3)) / (3 : ℝ) ^ ((1 : ℝ) / 3) /
      (3 : ℝ) ^ ((1 : ℝ) / 3) := div_nonneg (div_nonneg hlog.le ht.le) ht.le
  have hden : (0 : ℝ) < 0.6 + Real.log (1.0 + (3 : ℝ) ^ ((1 : ℝ) / 3)) /
      (3 : ℝ) ^ ((1 : ℝ) / 3) / (3 : ℝ) ^ ((1 : ℝ) / 3) := by linarith
  constructor
  · simp only [calculateRocheLobeRadiusStatic, hq]
    exact div_pos (by norm_num) hden
  · simp only [calculateRocheLobeRadiusStatic, hq]
    rw [div_lt_one hden]
    linarith

/-- Options instance for the C4 evaluation: overflow at birth is allowed. -/
def birthOpts4 : BirthOptions :=
  { allowRLOFAtBirth := true, allowTouchingAtBirth := true, aisRefinementPhase := false
    minimumMassSecondary := 0, initialMassFunctionMin := 0, initialMassFunctionMax := 0
    massRatioDistributionMin := 0, massRatioDistributionMax := 0
    semiMajorAxisDistributionMin := 0, semiMajorAxisDistributionMax := 0 }

/-- Sample instance for the C4 evaluation: unequal masses 3 and 1 on a
circular unit orbit. -/
def sample4 : RawSample :=
  { mass1 := 3, massRatioVal := 1 / 3, metallicity1 := 0, metallicity2 := 0
    semiMajorAxis := 1, eccentricity := 0 }

/-- C4: evaluation of the constructor body at a forced-overflow configuration
with pre-equilibration masses 3 and 1, eccentricity 0, semi-major axis 1 and
overflow at birth allowed. The masses are equilibrated to their mean 2 and
the eccentricity becomes 0 as claimed, but the stored semi-major axis is
a0*(1 - e0^2) = 1, because the factor 16*m1m2*m1m2/M^4 is evaluated with the
already equilibrated masses, where it is identically one; it differs from
the claimed value computed from the pre-equilibration masses (9/16 for the
angular-momentum-conserving factor 16*(m1*m2)^2/(m1+m2)^4, 3/16 for the
claim's literal 16*m1*m2/(m1+m2)^4), so angular momentum is not conserved,
contradicting the source comment "circularise; conserve angular momentum". -/
theorem constructorEquilibration_postEqMasses_bug :
    (buildBinaryCandidate cst1 birthOpts4 (fun _ _ => 1000000) sample4).massesEquilibratedAtBirth
      = true ∧
    (buildBinaryCandidate cst1 birthOpts4 (fun _ _ => 1000000) sample4).mass1 = 2 ∧
    (buildBinaryCandidate cst1 birthOpts4 (fun _ _ => 1000000) sample4).mass2 = 2 ∧
    (buildBinaryCandidate cst1 birthOpts4 (fun _ _ => 1000000) sample4).eccentricity = 0 ∧
    (buildBinaryCandidate cst1 birthOpts4 (fun _ _ => 1000000) sample4).semiMajorAxis = 1 ∧
    (buildBinaryCandidate cst1 birthOpts4 (fun _ _ => 1000000) sample4).semiMajorAxis ≠
      sample4.semiMajorAxis * (16 * ((3 : ℝ) * 1) * (3 * 1) / ((3 + 1) ^ 4)) *
        (1 - sample4.eccentricity ^ 2) ∧
    (buildBinaryCandidate cst1 birthOpts4 (fun _ _ => 1000000) sample4).semiMajorAxis ≠
      sample4.semiMajorAxis * (16 * (3 : ℝ) * 1 / ((3 + 1) ^ 4)) *
        (1 - sample4.eccentricity ^ 2) := by
  obtain ⟨hpos, hlt⟩ := rocheLobeRadius31_bounds
  have h1 : (1 : ℝ) < rocheLobeTracker1 cst1 (fun _ _ => 1000000) sample4 := by
    simp only [rocheLobeTracker1, sample4, cst1]
    norm_num
    rw [one_lt_div hpos]
    linarith
  simp only [buildBinaryCandidate]
  rw [if_pos (Or.inl h1)]
  simp only [birthOpts4, sample4, cst1]
  norm_num

/-- Common-envelope options instance for the C3 witness: alpha one, main
sequence survivors allowed. -/
def ceOptsEx : CEOptions :=
  { allowMainSequenceStarToSurviveCommonEnvelope := true, alphaCE := 1.0 }

/-- Giant donor instance for the C3 witness. -/
def ceDonorEx : CEStar :=
  { mass := 10, coreMass := 4, radius := 50, lambdaAtCEE := 1
    isMainSequence := false, isCompactObject := false, isRLOF := true, postRadius := 1 }

/-- Main-sequence companion instance for the C3 witness. -/
def ceCompanionEx : CEStar :=
  { mass := 5, coreMass := 0, radius := 2, lambdaAtCEE := 1
    isMainSequence := true, isCompactObject := false, isRLOF := false, postRadius := 1 }

/-- C3 witness: the giant-donor/MS-companion theorem instantiated at the
concrete example event. -/
theorem resolveCE_giant_donor_MS_companion_witness :
    (resolveCommonEnvelopeEvent cst1 ceOptsEx 100 0 ceDonorEx ceCompanionEx false).star1Mass =
      ceDonorEx.coreMass ∧
    (resolveCommonEnvelopeEvent cst1 ceOptsEx 100 0 ceDonorEx ceCompanionEx false).eccentricity
      = 0 ∧
    ((resolveCommonEnvelopeEvent cst1 ceOptsEx 100 0 ceDonorEx ceCompanionEx
        false).stellarMerger = true ↔
      (resolveCommonEnvelopeEvent cst1 ceOptsEx 100 0 ceDonorEx ceCompanionEx
        false).semiMajorAxis * cst1.auToRsol <
        ceDonorEx.postRadius + ceCompanionEx.postRadius) :=
  resolveCE_giant_donor_MS_companion cst1 ceOptsEx 100 0 ceDonorEx ceCompanionEx
    rfl rfl rfl rfl (by norm_num [ceDonorEx]) (by norm_num [ceDonorEx]) rfl rfl
    (by norm_num [ceDonorEx, ceCompanionEx]) (by norm_num [cst1])

/-- The angular-momentum-loss prescription choices of
OPTIONS->MassTransferAngularMomentumLossPrescription(), with a catch-all
value for the switch default. -/
inductive MTAngularMomentumLossChoice where
  | jeansLoss
  | isotropicReEmission
  | circumbinaryRing
  | arbitraryLoss
  | unknownLoss

/-- BaseBinaryStar::CalculateGammaAngularMomentumLoss (BaseBinaryStar.cpp):
the fraction of specific angular momentum with which non-accreted mass leaves
the system, by prescription; the switch default falls back to 1 with a
warning. jlossOption carries OPTIONS->MassTransferJloss(). -/
def calculateGammaAngularMomentumLoss (presc : MTAngularMomentumLossChoice)
    (jlossOption : ℝ) (p_DonorMass p_AccretorMass : ℝ) : ℝ :=
  match presc with
  | .jeansLoss => p_AccretorMass / p_DonorMass
  | .isotropicReEmission => p_DonorMass / p_AccretorMass
  | .circumbinaryRing =>
      (Real.sqrt 2 * (p_DonorMass + p_AccretorMass) * (p_DonorMass + p_AccretorMass)) /
        (p_DonorMass * p_AccretorMass)
  | .arbitraryLoss => jlossOption
  | .unknownLoss => 1.0

/-- The substep count of BaseBinaryStar::CalculateMassTransferOrbit:
fmax(floor(fabs(deltaMass/(MAXIMUM_MASS_TRANSFER_FRACTION_PER_STEP*massD))), 1). -/
def mtNumberOfIterations (cst : Consts) (p_DonorMass p_DeltaMassDonor : ℝ) : ℤ :=
  max ⌊|p_DeltaMassDonor / (cst.maxMassTransferFractionPerStep * p_DonorMass)|⌋ 1

/-- Loop state of the mass-transfer orbit integration: orbital angular
momentum, semi-major axis, and the evolving donor/accretor masses. -/
structure MTOrbitState where
  jOrb : ℝ
  semiMajorAxis : ℝ
  massD : ℝ
  massA : ℝ
  massAplusMassD : ℝ

/-- One iteration of the loop body of
BaseBinaryStar::CalculateMassTransferOrbit (BaseBinaryStar.cpp). -/
def mtOrbitStep (presc : MTAngularMomentumLossChoice) (jlossOption fractionAccreted dM : ℝ)
    (st : MTOrbitState) : MTOrbitState :=
  let jLoss := calculateGammaAngularMomentumLoss presc jlossOption st.massD st.massA
  let jOrb := st.jOrb + ((jLoss * st.jOrb * (1.0 - fractionAccreted) / st.massAplusMassD) * dM)
  let semiMajorAxis := st.semiMajorAxis + (((-2.0 * dM / st.massD) *
      (1.0 - (fractionAccreted * (st.massD / st.massA)) -
        ((1.0 - fractionAccreted) * (jLoss + 0.5) * (st.massD / st.massAplusMassD)))) *
      st.semiMajorAxis)
  let massD := st.massD + dM
  let massA := st.massA - (dM * fractionAccreted)
  { jOrb := jOrb, semiMajorAxis := semiMajorAxis, massD := massD, massA := massA
    massAplusMassD := massA + massD }

/-- BaseBinaryStar::CalculateMassTransferOrbit (BaseBinaryStar.cpp): the new
semi-major axis after integrating the angular-momentum-loss prescription over
the substeps, each of size deltaMass/numberIterations. -/
def calculateMassTransferOrbit (cst : Consts) (presc : MTAngularMomentumLossChoice)
    (jlossOption : ℝ) (semiMajorAxisIn p_DonorMass p_DeltaMassDonor accretorMass
    p_FractionAccreted : ℝ) : ℝ :=
  let massA := accretorMass
  let massD := p_DonorMass
  let massAplusMassD := massA + massD
  let jOrb := (massA * massD / massAplusMassD) *
      Real.sqrt (semiMajorAxisIn * cst.gravConstAUMsolYr * massAplusMassD)
  let n := mtNumberOfIterations cst p_DonorMass p_DeltaMassDonor
  let dM := p_DeltaMassDonor / (n : ℝ)
  (Nat.iterate (mtOrbitStep presc jlossOption p_FractionAccreted dM) n.toNat
    { jOrb := jOrb, semiMajorAxis := semiMajorAxisIn, massD := massD, massA := massA
      massAplusMassD := massAplusMassD }).semiMajorAxis

/-- C6 counterexample: with maximum fraction f = 1, donor mass 1 and total
mass change 3/2, the substep count floors to 1, so the single substep moves
3/2 of the donor mass, strictly more than the maximum fraction f*m = 1. -/
theorem mtSubstep_exceeds_maximum_fraction :
    mtNumberOfIterations cst1 1 (3 / 2) = 1 ∧
    cst1.maxMassTransferFractionPerStep * 1 <
      |(3 / 2 : ℝ) / ((mtNumberOfIterations cst1 1 (3 / 2) : ℤ) : ℝ)| := by
  have hfloor : ⌊(3 / 2 : ℝ)⌋ = 1 := by
    rw [Int.floor_eq_iff]
    norm_num
  have hsimp : (3 / 2 : ℝ) / (cst1.maxMassTransferFractionPerStep * 1) = 3 / 2 := by
    norm_num [cst1]
  have hn : mtNumberOfIterations cst1 1 (3 / 2) = 1 := by
    rw [mtNumberOfIterations, hsimp, abs_of_pos (by norm_num : (0 : ℝ) < 3 / 2), hfloor]
    exact max_self 1
  refine ⟨hn, ?_⟩
  rw [hn, Int.cast_one, div_one, abs_of_pos (by norm_num : (0 : ℝ) < 3 / 2)]
  norm_num [cst1]

/-- C6 (amended): the substep count of the mass-transfer orbit integration is
max(floor(|deltaMass|/(f*m)), 1), so it scales linearly with |deltaMass|/m,
and each substep changes the donor mass by strictly less than twice the
maximum fraction f of the donor's initial mass (because the count is floored
rather than rounded up, a substep can exceed f*m itself, but never 2*f*m). -/
theorem mtSubstep_count_and_bound (cst : Consts) (m dm : ℝ)
    (hf : 0 < cst.maxMassTransferFractionPerStep) (hm : 0 < m) :
    mtNumberOfIterations cst m dm =
      max ⌊|dm| / (cst.maxMassTransferFractionPerStep * m)⌋ 1 ∧
    |dm / ((mtNumberOfIterations cst m dm : ℤ) : ℝ)| <
      2 * cst.maxMassTransferFractionPerStep * m := by
  have hfm : 0 < cst.maxMassTransferFractionPerStep * m := mul_pos hf hm
  have habs : |dm / (cst.maxMassTransferFractionPerStep * m)| =
      |dm| / (cst.maxMassTransferFractionPerStep * m) := by
    rw [abs_div, abs_of_pos hfm]
  constructor
  · rw [mtNumberOfIterations, habs]
  · set f := cst.maxMassTransferFractionPerStep with hfdef
    set x := |dm| / (f * m) with hxdef
    have hxval : |dm| = x * (f * m) := by
      rw [hxdef, div_mul_cancel₀]
      exact ne_of_gt hfm
    set n : ℤ := mtNumberOfIterations cst m dm with hndef
    have hn1 : (1 : ℤ) ≤ n := by
      rw [hndef, mtNumberOfIterations]
      exact le_max_right _ _
    have hnfloor : ⌊x⌋ ≤ n := by
      rw [hndef, mtNumberOfIterations, habs]
      exact le_max_left _ _
    have hnpos : (0 : ℝ) < (n : ℝ) := by exact_mod_cast lt_of_lt_of_le Int.zero_lt_one hn1
    have hx2n : x < 2 * (n : ℝ) := by
      have h1 : x < (⌊x⌋ : ℝ) + 1 := Int.lt_floor_add_one x
      have h2 : ((⌊x⌋ : ℤ) : ℝ) ≤ (n : ℝ) := by exact_mod_cast hnfloor
      have h3 : (1 : ℝ) ≤ (n : ℝ) := by exact_mod_cast hn1
      linarith
    rw [abs_div, abs_of_pos hnpos, div_lt_iff₀ hnpos, hxval]
    nlinarith

/-- C6 witness: the amended bound instantiated at the counterexample input
itself, where the single substep of size 3/2 stays below 2*f*m = 2. -/
theorem mtSubstep_count_and_bound_witness :
    mtNumberOfIterations cst1 1 (3 / 2) =
      max ⌊|(3 / 2 : ℝ)| / (cst1.maxMassTransferFractionPerStep * 1)⌋ 1 ∧
    |(3 / 2 : ℝ) / ((mtNumberOfIterations cst1 1 (3 / 2) : ℤ) : ℝ)| <
      2 * cst1.maxMassTransferFractionPerStep * 1 :=
  mtSubstep_count_and_bound cst1 1 (3 / 2) (by norm_num [cst1]) (by norm_num)

/-- Constituent-star data touched by BaseBinaryStar::ResolveSupernova. The
kick angles and magnitude, eccentric and true anomaly are the values the star
collaborator reports (SN_Theta, SN_Phi, SN_KickMagnitude, CalculateSNAnomalies
results); velocity is the accumulated component velocity
(UpdateComponentVelocity adds to it, per the source comment). -/
structure SNStar where
  massPrev : ℝ
  mass : ℝ
  isSNevent : Bool
  kickMagnitude : ℝ
  kickTheta : ℝ
  kickPhi : ℝ
  eccentricAnomaly : ℝ
  trueAnomaly : ℝ
  velocity : Vector3d
  orbitalEnergyPreSN : ℝ
  orbitalEnergyPostSN : ℝ
  runaway : Bool

/-- Binary-level state read and written by BaseBinaryStar::ResolveSupernova.
The NaN sentinels the source stores in m_OrbitalVelocityPreSN and m_uK for an
already-unbound system are modelled as none. -/
structure SNBinaryState where
  eccentricityPrev : ℝ
  semiMajorAxisPrev : ℝ
  eccentricity : ℝ
  semiMajorAxis : ℝ
  eccentricityPreSN : ℝ
  semiMajorAxisPreSN : ℝ
  thetaE : ℝ
  phiE : ℝ
  psiE : ℝ
  systemicVelocity : Vector3d
  unbound : Bool
  orbitalVelocityPreSN : Option ℝ
  uK : Option ℝ
  iPrime : ℝ
  cosIPrime : ℝ

/-- One value of RAND->Random() for each call site inside ResolveSupernova
(the drawn values are arbitrary reals here; the source draws uniforms). -/
structure SNRandomDraws where
  unboundPhiDraw : ℝ
  unboundPsiDraw : ℝ
  parallelPhiDraw : ℝ
  antiparallelPhiDraw : ℝ
  undefinedEVecPhiDraw : ℝ
  undefinedEpVecPsiDraw : ℝ
  finalPsiDraw : ℝ

/-- Warnings emitted through SHOW_WARN inside ResolveSupernova. -/
inductive SNWarning where
  | resolveSupernovaImproperlyCalled

/-- Result of ResolveSupernova: the boolean return value, the updated binary
state, the updated stars, and any warnings logged. -/
structure SNResult where
  eventResolved : Bool
  state : SNBinaryState
  supernova : SNStar
  companion : SNStar
  warnings : List SNWarning

/-- Modelled from the spec: CalculateOrbitalEnergy of the missing
BaseBinaryStar.h, the Keplerian orbital energy -G*mu*M/(2a) of a binary with
reduced mass mu, total mass M and semi-major axis a (spec section 3: derived
total orbital energy from the conservation-law formulas). -/
def calculateOrbitalEnergy (cst : Consts) (p_Mu p_Mass p_SemiMajorAxis : ℝ) : ℝ :=
  -(cst.gravConstAUMsolYr * p_Mu * p_Mass) / (2.0 * p_SemiMajorAxis)

/-- Code common to every path through ResolveSupernova that resolves an
event: post-SN orbital energy, m_IPrime and m_CosIPrime from the final
ThetaE, clearing the star's supernova flag, and the successful return. -/
def snResolutionTail (cst : Consts) (s : SNBinaryState) (sn cp : SNStar) : SNResult :=
  let totalMass := sn.mass + cp.mass
  let reducedMass := sn.mass * cp.mass / totalMass
  let sn2 := { sn with
    orbitalEnergyPostSN := calculateOrbitalEnergy cst reducedMass totalMass s.semiMajorAxis
    isSNevent := false }
  let s2 := { s with iPrime := s.thetaE, cosIPrime := Real.cos s.thetaE }
  { eventResolved := true, state := s2, supernova := sn2, companion := cp, warnings := [] }

/-- BaseBinaryStar::ResolveSupernova (BaseBinaryStar.cpp): resolves a natal
kick. If the star is not flagged for a supernova, warns and returns without
touching any state. If the binary is already unbound, only the exploding
star's velocity is updated and the pre-SN orbital velocity and dimensionless
kick become undefined. Otherwise the Pfahl-Rappaport-Podsiadlowski vector
algebra produces the post-SN angular-momentum and Laplace-Runge-Lenz vectors,
the post-SN eccentricity and semi-major axis, and the outcome branch:
eccentricity at least one disrupts the binary (unbound flag set, asymptotic
component velocities accumulated, PhiE and PsiE randomised), otherwise the
binary stays bound and the Euler angles are recomputed, with the degenerate
parallel and antiparallel cases handled through the angle between the
eccentricity vectors and the periapsis angle PsiE always re-randomised.
CheckRunaway on the companion is modelled from the spec (flag the companion
as a runaway when the system has become unbound). -/
structure SNKinematics where
  rVec : Vector3d
  rmag : ℝ
  vVec : Vector3d
  vmag : ℝ
  hVec : Vector3d
  hmag : ℝ
  eVec : Vector3d
  vcmVec : Vector3d
  vpVec : Vector3d
  hpVec : Vector3d
  hpmag : ℝ
  epVec : Vector3d
  eccentricityPost : ℝ
  aPostKm : ℝ

/-- The two-body vector algebra of BaseBinaryStar::ResolveSupernova for a
binary that is intact before the supernova: pre-SN relative position and
velocity at the sampled eccentric anomaly, specific angular momentum and
Laplace-Runge-Lenz vectors, then the post-SN quantities after applying the
natal kick (with the in-plane angle shifted by the phi-switch hack of the
source) and the instantaneous mass loss: post-SN relative velocity, angular
momentum, eccentricity vector, eccentricity and semi-major axis (km), and the
post-SN centre-of-mass velocity. -/
def snKinematics (cst : Consts) (sn cp : SNStar) (s : SNBinaryState) : SNKinematics :=
  let a := s.semiMajorAxisPrev * cst.auToKm
  let e := s.eccentricityPrev
  let m1 := sn.massPrev
  let m2 := cp.massPrev
  let mb := m1 + m2
  let cosEA := Real.cos sn.eccentricAnomaly
  let sinEA := Real.sin sn.eccentricAnomaly
  let omega := Real.sqrt (cst.gravConstSN * mb / (a * a * a))
  let rVec : Vector3d := ⟨a * (cosEA - e), a * Real.sqrt (1 - e * e) * sinEA, 0.0⟩
  let r := rVec.mag
  let vVec : Vector3d := ⟨(-omega * a * a / r) * sinEA,
      (omega * a * a / r) * Real.sqrt (1 - e * e) * cosEA, 0.0⟩
  let v := vVec.mag
  let hVec := Vector3d.cross rVec vVec
  let hmag := hVec.mag
  let eVec := ((Vector3d.cross vVec hVec).sdiv (cst.gravConstSN * mb)).sub (rVec.sdiv r)
  let theta := sn.kickTheta
  let psi := sn.trueAnomaly
  let betaAngle := Real.pi - Vector3d.angleBetween rVec vVec
  let newPhi := sn.kickPhi + psi + Real.pi - betaAngle
  let kickVec := Vector3d.smul sn.kickMagnitude
      ⟨Real.cos theta * Real.cos newPhi, Real.cos theta * Real.sin newPhi, Real.sin theta⟩
  let dV1 := kickVec
  let dV2 : Vector3d := ⟨0.0, 0.0, 0.0⟩
  let m1p := sn.mass
  let m2p := cp.mass
  let mbp := m1p + m2p
  let dm1 := m1 - m1p
  let dm2 := m2 - m2p
  let vcmVec := ((Vector3d.smul (-m2 * dm1 / (mb * mbp) + m1 * dm2 / (mb * mbp)) vVec).add
      (Vector3d.smul (m1p / mbp) dV1)).add (Vector3d.smul (m2p / mbp) dV2)
  let vpVec := vVec.add (dV1.sub dV2)
  let hpVec := Vector3d.cross rVec vpVec
  let hpmag := hpVec.mag
  let epVec := ((Vector3d.cross vpVec hpVec).sdiv (cst.gravConstSN * mbp)).sub (rVec.sdiv r)
  let ep := epVec.mag
  let ap := hpmag * hpmag / (cst.gravConstSN * mbp * (1 - ep * ep))
  { rVec := rVec, rmag := r, vVec := vVec, vmag := v, hVec := hVec, hmag := hmag
    eVec := eVec, vcmVec := vcmVec, vpVec := vpVec, hpVec := hpVec, hpmag := hpmag
    epVec := epVec, eccentricityPost := ep, aPostKm := ap }

/-- BaseBinaryStar::ResolveSupernova (BaseBinaryStar.cpp): resolves a natal
kick. If the star is not flagged for a supernova, warns and returns without
touching any state. If the binary is already unbound, only the exploding
star velocity is updated and the pre-SN orbital velocity and dimensionless
kick become undefined. Otherwise the vector algebra of snKinematics produces
the post-SN eccentricity and semi-major axis and the outcome branch:
eccentricity at least one disrupts the binary (unbound flag set, asymptotic
component velocities accumulated, PhiE and PsiE randomised), otherwise the
binary stays bound and the Euler angles are recomputed, with the degenerate
parallel and antiparallel cases handled through the angle between the
eccentricity vectors and the periapsis angle PsiE always re-randomised.
CheckRunaway on the companion is modelled from the spec (flag the companion
as a runaway when the system has become unbound). -/
def resolveSupernova (cst : Consts) (rnd : SNRandomDraws) (sn cp : SNStar)
    (s : SNBinaryState) : SNResult :=
  if sn.isSNevent = false then
    { eventResolved := false, state := s, supernova := sn, companion := cp
      warnings := [SNWarning.resolveSupernovaImproperlyCalled] }
  else
    let s1 := { s with
      eccentricityPreSN := s.eccentricityPrev
      semiMajorAxisPreSN := s.semiMajorAxisPrev }
    let totalMassPreSN := sn.massPrev + cp.massPrev
    let reducedMassPreSN := sn.massPrev * cp.massPrev / totalMassPreSN
    let sn1 := { sn with orbitalEnergyPreSN := (calculateOrbitalEnergy cst
        reducedMassPreSN totalMassPreSN s1.semiMajorAxisPreSN) }
    let theta := sn.kickTheta
    let phi := sn.kickPhi
    let natalKickVector := Vector3d.smul sn.kickMagnitude
        ⟨Real.cos theta * Real.cos phi, Real.cos theta * Real.sin phi, Real.sin theta⟩
    if s.unbound = true then
      let sn2 := { sn1 with velocity := (sn1.velocity.add
          (Vector3d.rotateVector s.thetaE s.phiE s.psiE natalKickVector)) }
      let s2 := { s1 with orbitalVelocityPreSN := none, uK := none }
      snResolutionTail cst s2 sn2 cp
    else
      let k := snKinematics cst sn cp s
      let e := s.eccentricityPrev
      let ep := k.eccentricityPost
      let s2 := { s1 with orbitalVelocityPreSN := some k.vmag
                          uK := some (sn.kickMagnitude / k.vmag) }
      let s3 := { s2 with systemicVelocity := (s2.systemicVelocity.add
          (Vector3d.rotateVector s.thetaE s.phiE s.psiE k.vcmVec)) }
      let m1p := sn.mass
      let m2p := cp.mass
      let mbp := m1p + m2p
      if 1 ≤ ep then
        let vinf := (cst.gravConstSN * mbp / k.hpmag) * Real.sqrt (ep * ep - 1)
        let vinfVec := Vector3d.smul vinf
            ((Vector3d.smul (-1 / ep) (k.epVec.sdiv k.epVec.mag)).add
             (Vector3d.smul (Real.sqrt (1 - 1 / (ep * ep)))
               (Vector3d.cross (k.hpVec.sdiv k.hpVec.mag) (k.epVec.sdiv k.epVec.mag))))
        let v1inf := (Vector3d.smul (m2p / mbp) vinfVec).add k.vcmVec
        let v2inf := (Vector3d.smul (-(m1p / mbp)) vinfVec).add k.vcmVec
        let sn2 := { sn1 with velocity := (sn1.velocity.add
            (Vector3d.rotateVector s.thetaE s.phiE s.psiE v1inf)) }
        let cp2 := { cp with
          velocity := cp.velocity.add (Vector3d.rotateVector s.thetaE s.phiE s.psiE v2inf)
          runaway := true }
        let s4 := { s3 with
          unbound := true
          thetaE := Vector3d.angleBetween (k.hVec.sdiv k.hmag) (k.hpVec.sdiv k.hpmag)
          phiE := 2 * Real.pi * rnd.unboundPhiDraw
          psiE := 2 * Real.pi * rnd.unboundPsiDraw
          eccentricity := ep
          semiMajorAxis := k.aPostKm * cst.kmToAU }
        snResolutionTail cst s4 sn2 cp2
      else
        let sn2 := { sn1 with velocity := (sn1.velocity.add
            (Vector3d.rotateVector s.thetaE s.phiE s.psiE k.vcmVec)) }
        let cp2 := { cp with velocity := (cp.velocity.add
            (Vector3d.rotateVector s.thetaE s.phiE s.psiE k.vcmVec)) }
        let thetaEp := Vector3d.angleBetween (k.hVec.sdiv k.hmag) (k.hpVec.sdiv k.hpmag)
        let phiPsi :=
          if thetaEp = 0 ∧ 0 < e ∧ 0 < ep then
            let psiPlusPhi := Vector3d.angleBetween k.eVec k.epVec
            let ph := 2 * Real.pi * rnd.parallelPhiDraw
            (ph, psiPlusPhi - ph)
          else if thetaEp = Real.pi ∧ 0 < e ∧ 0 < ep then
            let psiMinusPhi := Vector3d.angleBetween k.eVec k.epVec
            let ph := 2 * Real.pi * rnd.antiparallelPhiDraw
            (ph, psiMinusPhi + ph)
          else
            let nVec := Vector3d.cross k.hVec k.hpVec
            let nmag := nVec.mag
            let ph := if e = 0 then 2 * Real.pi * rnd.undefinedEVecPhiDraw
              else if 0 ≤ Vector3d.dot k.eVec k.hpVec then
                Vector3d.angleBetween (k.eVec.sdiv e) (nVec.sdiv nmag)
              else -(Vector3d.angleBetween (k.eVec.sdiv e) (nVec.sdiv nmag))
            let ps := if ep = 0 then 2 * Real.pi * rnd.undefinedEpVecPsiDraw
              else if 0 ≤ Vector3d.dot k.epVec k.hVec then
                Vector3d.angleBetween (k.epVec.sdiv ep) (nVec.sdiv nmag)
              else -(Vector3d.angleBetween (k.epVec.sdiv ep) (nVec.sdiv nmag))
            (ph, ps)
        let s4 := { s3 with
          thetaE := thetaEp
          phiE := phiPsi.1
          psiE := 2 * Real.pi * rnd.finalPsiDraw
          eccentricity := ep
          semiMajorAxis := k.aPostKm * cst.kmToAU }
        snResolutionTail cst s4 sn2 cp2

/-- C1: in a supernova resolved for a binary that is bound on entry, the
post-SN eccentricity stored in the state classifies the outcome: eccentricity
at least one forces the unbound flag true (with the asymptotic centre-of-mass
and component velocities being totally defined real vectors, hence finite in
this exact-arithmetic model), and eccentricity below one leaves the flag
false with the recomputed Euler angle ThetaE lying in the closed interval
from 0 to pi. -/
theorem resolveSupernova_bound_outcome (cst : Consts) (rnd : SNRandomDraws)
    (sn cp : SNStar) (s : SNBinaryState)
    (hsn : sn.isSNevent = true) (hbound : s.unbound = false) :
    ((1 : ℝ) ≤ (resolveSupernova cst rnd sn cp s).state.eccentricity →
      (resolveSupernova cst rnd sn cp s).state.unbound = true) ∧
    ((resolveSupernova cst rnd sn cp s).state.eccentricity < 1 →
      (resolveSupernova cst rnd sn cp s).state.unbound = false ∧
      0 ≤ (resolveSupernova cst rnd sn cp s).state.thetaE ∧
      (resolveSupernova cst rnd sn cp s).state.thetaE ≤ Real.pi) := by
  simp only [resolveSupernova, hsn, hbound, Bool.true_eq_false, Bool.false_eq_true,
    if_false, snResolutionTail]
  by_cases hep : (1 : ℝ) ≤ (snKinematics cst sn cp s).eccentricityPost
  · simp only [if_pos hep]
    refine ⟨fun _ => ?_, fun hlt => absurd hep (not_le.mpr hlt)⟩
    trivial
  · simp only [if_neg hep]
    refine ⟨fun hge => absurd hge hep, fun _ => ⟨?_, ?_, ?_⟩⟩
    · trivial
    · exact Vector3d.angleBetween_nonneg _ _
    · exact Vector3d.angleBetween_le_pi _ _

/-- C8: calling ResolveSupernova for a star not flagged as undergoing a
supernova logs the improper-call warning, returns false, and leaves the
binary state and both stars exactly as they were. -/
theorem resolveSupernova_not_flagged_no_mutation (cst : Consts) (rnd : SNRandomDraws)
    (sn cp : SNStar) (s : SNBinaryState) (h : sn.isSNevent = false) :
    resolveSupernova cst rnd sn cp s =
      { eventResolved := false, state := s, supernova := sn, companion := cp
        warnings := [SNWarning.resolveSupernovaImproperlyCalled] } := by
  simp [resolveSupernova, h]

/-- Supernova-star instance for the C1 and C8 witnesses (the flag is flipped
per witness). -/
def snStarEx (flagged : Bool) : SNStar :=
  { massPrev := 2, mass := 1, isSNevent := flagged, kickMagnitude := 0, kickTheta := 0
    kickPhi := 0, eccentricAnomaly := 0, trueAnomaly := 0, velocity := ⟨0, 0, 0⟩
    orbitalEnergyPreSN := 0, orbitalEnergyPostSN := 0, runaway := false }

/-- Binary-state instance for the C1 and C8 witnesses: a bound unit orbit. -/
def snStateEx : SNBinaryState :=
  { eccentricityPrev := 0, semiMajorAxisPrev := 1, eccentricity := 0, semiMajorAxis := 1
    eccentricityPreSN := 0, semiMajorAxisPreSN := 1, thetaE := 0, phiE := 0, psiE := 0
    systemicVelocity := ⟨0, 0, 0⟩, unbound := false, orbitalVelocityPreSN := none
    uK := none, iPrime := 0, cosIPrime := 1 }

/-- Zero draws for the witnesses. -/
def snDrawsEx : SNRandomDraws :=
  { unboundPhiDraw := 0, unboundPsiDraw := 0, parallelPhiDraw := 0, antiparallelPhiDraw := 0
    undefinedEVecPhiDraw := 0, undefinedEpVecPsiDraw := 0, finalPsiDraw := 0 }

/-- C1 witness: the bound-entry classification instantiated at the concrete
example supernova. -/
theorem resolveSupernova_bound_outcome_witness :
    ((1 : ℝ) ≤ (resolveSupernova cst1 snDrawsEx (snStarEx true) (snStarEx false)
        snStateEx).state.eccentricity →
      (resolveSupernova cst1 snDrawsEx (snStarEx true) (snStarEx false)
        snStateEx).state.unbound = true) ∧
    ((resolveSupernova cst1 snDrawsEx (snStarEx true) (snStarEx false)
        snStateEx).state.eccentricity < 1 →
      (resolveSupernova cst1 snDrawsEx (snStarEx true) (snStarEx false)
        snStateEx).state.unbound = false ∧
      0 ≤ (resolveSupernova cst1 snDrawsEx (snStarEx true) (snStarEx false)
        snStateEx).state.thetaE ∧
      (resolveSupernova cst1 snDrawsEx (snStarEx true) (snStarEx false)
        snStateEx).state.thetaE ≤ Real.pi) :=
  resolveSupernova_bound_outcome cst1 snDrawsEx (snStarEx true) (snStarEx false)
    snStateEx rfl rfl

/-- C8 witness: the no-mutation early return instantiated at the concrete
example with the supernova flag cleared. -/
theorem resolveSupernova_not_flagged_no_mutation_witness :
    resolveSupernova cst1 snDrawsEx (snStarEx false) (snStarEx false) snStateEx =
      { eventResolved := false, state := snStateEx, supernova := snStarEx false
        companion := snStarEx false
        warnings := [SNWarning.resolveSupernovaImproperlyCalled] } :=
  resolveSupernova_not_flagged_no_mutation cst1 snDrawsEx (snStarEx false)
    (snStarEx false) snStateEx rfl

end

end COMPAS
